import Mathlib

/-!
Shallow embedding of the change-detection engine of the
monitoring_territory repository, together with proofs checking the
natural-language specification against it.

Images are modelled as rectangular grids of rational-valued BGR pixel
triples (OpenCV channel order).  Arithmetic that numpy performs on
floats is carried out on rationals; the one place where IEEE special
values matter (an unguarded division whose denominator can be zero) is
modelled by the explicit type `FVal` with `inf` and `nan` constructors.
Pure library primitives whose internals the repository does not define
(Gaussian blur, CLAHE, histogram equalisation, BGR→HSV conversion) are
parameters of the pipeline, collected in the `Prims` structure; every
piece of logic written in the repository itself is embedded concretely.
Rounding to `uint8` that OpenCV performs after colour conversions is
omitted (values stay rational); no claim below depends on it.
-/

set_option maxHeartbeats 1000000
set_option maxRecDepth 4000

/-- A pixel in OpenCV channel order: (blue, green, red). -/
abbrev Pix : Type := ℚ × ℚ × ℚ

/-- A raster: a list of rows. -/
abbrev Grid (α : Type) : Type := List (List α)

/-- Number of rows (`img.shape[0]`). -/
def Grid.height {α : Type} (g : Grid α) : Nat := g.length

/-- Number of columns of the first row (`img.shape[1]`; all grids built by
the pipeline are rectangular). -/
def Grid.width {α : Type} (g : Grid α) : Nat := (g.headD []).length

/-- Pixel access with a default outside the bounds. -/
def Grid.get {α : Type} [Inhabited α] (g : Grid α) (i j : Nat) : α :=
  (g.getD i []).getD j default

/-- Build an `h × w` grid from an index function. -/
def mkGrid {α : Type} (h w : Nat) (f : Nat → Nat → α) : Grid α :=
  (List.range h).map (fun i => (List.range w).map (fun j => f i j))

/-- Float value produced by a numpy division: finite, `inf`, or `nan`.
`0/0` is `nan`, `x/0` for positive `x` is `inf` (all numerators in the
code are non-negative means). -/
inductive FVal where
  | fin (q : ℚ)
  | inf
  | nan
deriving DecidableEq

/-- Division with numpy float semantics for a non-negative numerator. -/
def fdiv (a b : ℚ) : FVal :=
  if b = 0 then (if a = 0 then FVal.nan else FVal.inf) else FVal.fin (a / b)

/-- Comparison `v > c` with numpy semantics: `inf > c` is true and
`nan > c` is false. -/
def FVal.gtQ : FVal → ℚ → Bool
  | FVal.fin q, c => decide (c < q)
  | FVal.inf, _ => true
  | FVal.nan, _ => false

/-- Grayscale conversion, `cv2.cvtColor(img, COLOR_BGR2GRAY)`:
`Y = 0.299 R + 0.587 G + 0.114 B` (uint8 rounding omitted). -/
def cvtColorGray (img : Grid Pix) : Grid ℚ :=
  mkGrid img.height img.width (fun i j =>
    (299 * (img.get i j).2.2 + 587 * (img.get i j).2.1 + 114 * (img.get i j).1) / 1000)

/-- Sum of all entries of a rational grid. -/
def gridSum (g : Grid ℚ) : ℚ := (g.map (fun row => row.sum)).sum

/-- Number of entries of a grid (`arr.size`). -/
def gridCount {α : Type} (g : Grid α) : Nat := (g.map List.length).sum

/-- Mean of all entries (`arr.mean()`). -/
def meanQ (g : Grid ℚ) : ℚ := gridSum g / (gridCount g : ℚ)

/-- The green channel, `img[:, :, 1]`. -/
def greenChannel (img : Grid Pix) : Grid ℚ :=
  mkGrid img.height img.width (fun i j => (img.get i j).2.1)

/-- Saturation of a pixel, the S channel of `cv2.cvtColor(·, COLOR_BGR2HSV)`
on the 0–255 scale: `0` when the max channel is `0`, else
`255·(max−min)/max` (uint8 rounding omitted). -/
def saturationOf (px : Pix) : ℚ :=
  let mx := max px.1 (max px.2.1 px.2.2)
  let mn := min px.1 (min px.2.1 px.2.2)
  if mx = 0 then 0 else 255 * (mx - mn) / mx

/-- The saturation channel `hsv[:, :, 1]`. -/
def saturationChannel (img : Grid Pix) : Grid ℚ :=
  mkGrid img.height img.width (fun i j => saturationOf (img.get i j))

/-- Result record of `GEEClient._detect_seasonal_changes` (the
human-readable `seasonal_reason` string is omitted; no claim concerns
its text). -/
structure SeasonalData where
  is_seasonal : Bool
  brightness_ratio : FVal
  green_ratio : ℚ
  saturation_diff : ℚ
  mean_brightness1 : ℚ
  mean_brightness2 : ℚ
  mean_green1 : ℚ
  mean_green2 : ℚ
deriving DecidableEq

/-- Embedding of `GEEClient._detect_seasonal_changes`
(`src/восстановилапрогу/gee_client.py`).  The brightness ratio is the
unguarded division `max(b1,b2)/min(b1,b2)`; the green ratio is guarded
(`1` when the first mean is not positive), exactly as in the source. -/
def detectSeasonalChanges (img1 img2 : Grid Pix) : SeasonalData :=
  let mb1 := meanQ (cvtColorGray img1)
  let mb2 := meanQ (cvtColorGray img2)
  let brightnessRatio := fdiv (max mb1 mb2) (min mb1 mb2)
  let mg1 := meanQ (greenChannel img1)
  let mg2 := meanQ (greenChannel img2)
  let greenRatio : ℚ := if 0 < mg1 then mg2 / mg1 else 1
  let seasonal1 : Bool := FVal.gtQ brightnessRatio (3 / 2)
  let seasonal2 : Bool :=
    seasonal1 || (decide ((3 : ℚ) / 2 < greenRatio) || decide (greenRatio < 67 / 100))
  let satDiff := |meanQ (saturationChannel img1) - meanQ (saturationChannel img2)|
  let seasonal3 : Bool := seasonal2 || decide ((20 : ℚ) < satDiff)
  { is_seasonal := seasonal3
    brightness_ratio := brightnessRatio
    green_ratio := greenRatio
    saturation_diff := satDiff
    mean_brightness1 := mb1
    mean_brightness2 := mb2
    mean_green1 := mg1
    mean_green2 := mg2 }

/-- A 1×1 all-black image (both means zero). -/
def blackImg : Grid Pix := [[(0, 0, 0)]]

/-- A 1×1 all-white image. -/
def whiteImg : Grid Pix := [[(255, 255, 255)]]

/-- Library primitives used by the pipelines but implemented inside
OpenCV, not in the repository: they are kept abstract, and every claim
is proved for an arbitrary choice of them.  All of them are pure
image-to-image transforms. -/
structure Prims where
  gaussianBlur : Nat → ℚ → Grid ℚ → Grid ℚ
  gaussianBlurColor : Nat → ℚ → Grid Pix → Grid Pix
  claheNormalize : Grid Pix → Grid Pix
  equalizeHist : Grid ℚ → Grid ℚ
  bgr2hsv : Grid Pix → Grid Pix

/-- A concrete executable instantiation of the primitives (identity
transforms), used only to evaluate witnesses. -/
def defaultPrims : Prims :=
  { gaussianBlur := fun _ _ g => g
    gaussianBlurColor := fun _ _ g => g
    claheNormalize := fun g => g
    equalizeHist := fun g => g
    bgr2hsv := fun g => g }

/-- Resize to `w × h` (`cv2.resize(img, (w, h))`), nearest-neighbour
sampling standing in for the default bilinear interpolation; only the
output dimensions matter to the claims. -/
def resize (img : Grid Pix) (w h : Nat) : Grid Pix :=
  mkGrid h w (fun i j => img.get (i * img.height / h) (j * img.width / w))

/-- Dimension reconciliation shared by `compare_images_advanced` and
`detect_real_changes`: both images are resized to the minimum of the
two heights and the minimum of the two widths. -/
def resizePair (img1 img2 : Grid Pix) : Grid Pix × Grid Pix :=
  let h := min img1.height img2.height
  let w := min img1.width img2.width
  (resize img1 w h, resize img2 w h)

/-- Absolute difference of two rational grids (`cv2.absdiff`). -/
def absdiffQ (a b : Grid ℚ) : Grid ℚ :=
  mkGrid a.height a.width (fun i j => |a.get i j - b.get i j|)

/-- Binary threshold (`cv2.threshold(g, t, 255, THRESH_BINARY)`), with
`255 ↦ true`. -/
def thresholdBin (g : Grid ℚ) (t : ℚ) : Grid Bool :=
  mkGrid g.height g.width (fun i j => decide (t < g.get i j))

/-- Pointwise AND of two masks (`cv2.bitwise_and`). -/
def andMask (a b : Grid Bool) : Grid Bool :=
  mkGrid a.height a.width (fun i j => a.get i j && b.get i j)

/-- Pointwise OR of two masks (`cv2.bitwise_or`). -/
def orMask (a b : Grid Bool) : Grid Bool :=
  mkGrid a.height a.width (fun i j => a.get i j || b.get i j)

/-- Pointwise NOT of a mask (`cv2.bitwise_not`). -/
def notMask (a : Grid Bool) : Grid Bool :=
  mkGrid a.height a.width (fun i j => !a.get i j)

/-- Mask access at possibly negative indices; outside the grid the
value is `false`. -/
def getI (m : Grid Bool) (i j : Int) : Bool :=
  if 0 ≤ i ∧ 0 ≤ j then m.get i.toNat j.toNat else false

/-- Offsets of a square structuring element of radius `r` (a `(2r+1)`
square window standing in for OpenCV's elliptical kernels of the same
size; the kernel shape is irrelevant to every claim). -/
def window (r : Nat) : List (Int × Int) :=
  (List.range (2 * r + 1)).flatMap (fun (a : Nat) =>
    (List.range (2 * r + 1)).map (fun (b : Nat) =>
      ((a : Int) - (r : Int), (b : Int) - (r : Int))))

/-- Morphological dilation (`cv2.dilate`). -/
def dilate (m : Grid Bool) (r : Nat) : Grid Bool :=
  mkGrid m.height m.width (fun i j =>
    (window r).any (fun d => getI m ((i : Int) + d.1) ((j : Int) + d.2)))

/-- Morphological erosion (`cv2.erode`). -/
def erode (m : Grid Bool) (r : Nat) : Grid Bool :=
  mkGrid m.height m.width (fun i j =>
    (window r).all (fun d => getI m ((i : Int) + d.1) ((j : Int) + d.2)))

/-- Morphological closing (`cv2.morphologyEx(·, MORPH_CLOSE, ·)`). -/
def morphClose (m : Grid Bool) (r : Nat) : Grid Bool := erode (dilate m r) r

/-- Morphological opening (`cv2.morphologyEx(·, MORPH_OPEN, ·)`). -/
def morphOpen (m : Grid Bool) (r : Nat) : Grid Bool := dilate (erode m r) r

/-- Count of set pixels (`cv2.countNonZero` / `np.sum(mask > 0)`). -/
def countNonZero (m : Grid Bool) : Nat := (m.map (fun row => row.count true)).sum

/-- Sum of a 0/255 `uint8` mask (`mask.sum()`). -/
def maskSum (m : Grid Bool) : Nat := 255 * countNonZero m

/-- Coordinates of the set pixels of a (rectangular) mask. -/
def cells (m : Grid Bool) : List (Nat × Nat) :=
  (List.range m.height).flatMap (fun i =>
    (List.range m.width).filterMap (fun j => if m.get i j then some (i, j) else none))

/-- Set 8-neighbours of a pixel. -/
def neighborCells (m : Grid Bool) (p : Nat × Nat) : List (Nat × Nat) :=
  (window 1).filterMap (fun d =>
    let i : Int := (p.1 : Int) + d.1
    let j : Int := (p.2 : Int) + d.2
    if 0 ≤ i ∧ 0 ≤ j ∧ getI m i j then some (i.toNat, j.toNat) else none)

/-- One step of flood fill: add every set neighbour of the current set. -/
def spread (m : Grid Bool) (s : List (Nat × Nat)) : List (Nat × Nat) :=
  (s ++ s.flatMap (neighborCells m)).dedup

/-- All pixels 8-connected to `p` (flood fill run for `h·w` steps, which
saturates). -/
def reach (m : Grid Bool) (p : Nat × Nat) : List (Nat × Nat) :=
  Nat.iterate (spread m) (m.height * m.width) [p]

/-- Connected components of a mask (the embedding of
`cv2.findContours(·, RETR_EXTERNAL, ·)`: one pixel set per component). -/
def comps (m : Grid Bool) : List (List (Nat × Nat)) :=
  (cells m).foldl
    (fun acc p => if acc.any (fun c => p ∈ c) then acc else acc ++ [reach m p]) []

/-- Pixel area of a component (the embedding of `cv2.contourArea` plus
`cv2.drawContours(·, ·, -1, 255, -1)`: a component contributes its
pixel count). -/
def compArea (c : List (Nat × Nat)) : Nat := c.dedup.length

/-- Paint a list of components, filled, onto an all-zero `h × w` canvas
(`np.zeros_like` followed by `cv2.drawContours(mask, [cnt], -1, 255, -1)`
for each kept contour). -/
def drawComps (w h : Nat) (cs : List (List (Nat × Nat))) : Grid Bool :=
  mkGrid h w (fun i j => cs.any (fun c => (i, j) ∈ c))

/-- Scaling by `alpha` with absolute value and saturation at 255
(`cv2.convertScaleAbs(g, alpha=alpha, beta=0)`; rounding omitted). -/
def convertScaleAbs (alpha : ℚ) (g : Grid ℚ) : Grid ℚ :=
  mkGrid g.height g.width (fun i j => min 255 |alpha * g.get i j|)

/-- Inclusive range test of a pixel (`cv2.inRange` bound pair). -/
def inRangePix (px lo hi : Pix) : Bool :=
  decide (lo.1 ≤ px.1 ∧ px.1 ≤ hi.1 ∧ lo.2.1 ≤ px.2.1 ∧ px.2.1 ≤ hi.2.1 ∧
    lo.2.2 ≤ px.2.2 ∧ px.2.2 ≤ hi.2.2)

/-- Mask of in-range pixels (`cv2.inRange(img, lo, hi)`). -/
def inRangeG (img : Grid Pix) (lo hi : Pix) : Grid Bool :=
  mkGrid img.height img.width (fun i j => inRangePix (img.get i j) lo hi)

/-- Per-channel mean over the pixels selected by a mask
(`cv2.mean(img, mask=mask)[:3]`; `0` when the mask is empty, as in
OpenCV). -/
def maskedMean (img : Grid Pix) (m : Grid Bool) : Pix :=
  let cs := cells m
  let n : ℚ := (cs.length : ℚ)
  ((cs.map (fun p => (img.get p.1 p.2).1)).sum / n,
   (cs.map (fun p => (img.get p.1 p.2).2.1)).sum / n,
   (cs.map (fun p => (img.get p.1 p.2).2.2)).sum / n)

/-- Keep masked pixels, zero elsewhere
(`cv2.bitwise_and(img, img, mask=mask)`). -/
def applyMaskC (img : Grid Pix) (m : Grid Bool) : Grid Pix :=
  mkGrid img.height img.width (fun i j => if m.get i j then img.get i j else (0, 0, 0))

/-- Replace the pixels outside the mask by a constant
(`result[final_mask == 0] = mean_val`). -/
def fillOutsideMask (img : Grid Pix) (m : Grid Bool) (mv : Pix) : Grid Pix :=
  mkGrid img.height img.width (fun i j => if m.get i j then img.get i j else mv)

/-! Constants of the two comparison branches of
`src/восстановилапрогу/gee_client.py`: the seasonal branch blurs with a
`(15, 15)` kernel at `σ = 5.0` and binarises at `50`; the normal branch
blurs with a `(5, 5)` kernel at `σ = 1.5` and binarises at `15`. -/

/-- Seasonal-branch Gaussian kernel size (`(15, 15)`). -/
def seasonalBlurKsize : Nat := 15

/-- Seasonal-branch Gaussian sigma (`5.0`). -/
def seasonalBlurSigma : ℚ := 5

/-- Seasonal-branch binarisation threshold (`50`). -/
def seasonalThreshold : ℚ := 50

/-- Normal-branch Gaussian kernel size (`(5, 5)`). -/
def normalBlurKsize : Nat := 5

/-- Normal-branch Gaussian sigma (`1.5`). -/
def normalBlurSigma : ℚ := 3 / 2

/-- Normal-branch binarisation threshold (`15`). -/
def normalThreshold : ℚ := 15

/-- Seasonal-branch brightness normalisation of the second grayscale
image: when `brightness_ratio > 1.2` the second image is rescaled by
`mean_brightness1 / mean_brightness2`. -/
def seasonalGray2 (sd : SeasonalData) (gray2 : Grid ℚ) : Grid ℚ :=
  if FVal.gtQ sd.brightness_ratio (6 / 5) then
    convertScaleAbs (sd.mean_brightness1 / sd.mean_brightness2) gray2
  else gray2

/-- Thresholded difference mask of `GEEClient._compare_seasonal_changes`:
grayscale both inputs, normalise brightness, blur strongly, absolute
difference, binarise at the high seasonal threshold. -/
def seasonalDiffMask (P : Prims) (img1 img2 : Grid Pix) (sd : SeasonalData) : Grid Bool :=
  let b1 := P.gaussianBlur seasonalBlurKsize seasonalBlurSigma (cvtColorGray img1)
  let b2 := P.gaussianBlur seasonalBlurKsize seasonalBlurSigma
    (seasonalGray2 sd (cvtColorGray img2))
  thresholdBin (absdiffQ b1 b2) seasonalThreshold

/-- Components of the seasonal difference mask whose area exceeds
`0.02 · w · h` (`min_area = (w * h) * 0.02`, kept when
`area > min_area`). -/
def seasonalKept (P : Prims) (img1 img2 : Grid Pix) (w h : Nat) (sd : SeasonalData) :
    List (List (Nat × Nat)) :=
  (comps (seasonalDiffMask P img1 img2 sd)).filter
    (fun c => decide (((w * h : Nat) : ℚ) * (2 / 100) < (compArea c : ℚ)))

/-- Embedding of `GEEClient._compare_seasonal_changes`: returns the
change percentage, the surviving contours and the changed-pixel
count. -/
def compareSeasonalChanges (P : Prims) (img1 img2 : Grid Pix) (w h : Nat)
    (sd : SeasonalData) : ℚ × List (List (Nat × Nat)) × Nat :=
  let kept := seasonalKept P img1 img2 w h sd
  let changed := countNonZero (drawComps w h kept)
  (((changed : ℚ) / ((w * h : Nat) : ℚ)) * 100, kept, changed)

/-- Embedding of the `preprocess_for_earth` inner function of
`GEEClient._compare_normal_changes`: CLAHE-based illumination
normalisation, earth-tone and vegetation HSV masks, cloud removal,
masked mean fill, light blur. -/
def preprocessForEarth (P : Prims) (img : Grid Pix) : Grid Pix × Grid Bool :=
  let normalized := P.claheNormalize img
  let hsv := P.bgr2hsv normalized
  let mask1 := inRangeG hsv (10, 30, 30) (30, 150, 150)
  let mask2 := inRangeG hsv (35, 30, 30) (85, 150, 150)
  let mask3 := inRangeG hsv (0, 30, 30) (10, 150, 150)
  let earthMask := orMask (orMask mask1 mask2) mask3
  let cloudMask := thresholdBin (cvtColorGray normalized) 200
  let finalMask := andMask earthMask (notMask cloudMask)
  let result := applyMaskC normalized finalMask
  let result := fillOutsideMask result finalMask (maskedMean normalized finalMask)
  (P.gaussianBlurColor 5 0 result, finalMask)

/-- Grayscale of the preprocessed image in the normal branch. -/
def normalPre (P : Prims) (img : Grid Pix) : Grid ℚ :=
  cvtColorGray (preprocessForEarth P img).1

/-- Brightness alignment of the second grayscale image in the normal
branch: rescale only when the means differ by more than 30. -/
def normalScaled (P : Prims) (img1 img2 : Grid Pix) : Grid ℚ :=
  let gray1 := normalPre P img1
  let gray2 := normalPre P img2
  if 30 < |meanQ gray1 - meanQ gray2| then
    convertScaleAbs (if 0 < meanQ gray2 then meanQ gray1 / meanQ gray2 else 1) gray2
  else gray2

/-- Thresholded difference mask of the normal branch: equalise,
blur lightly, absolute difference, binarise at the low threshold. -/
def normalDiffMask (P : Prims) (img1 img2 : Grid Pix) : Grid Bool :=
  let g1 := P.gaussianBlur normalBlurKsize normalBlurSigma (P.equalizeHist (normalPre P img1))
  let g2 := P.gaussianBlur normalBlurKsize normalBlurSigma
    (P.equalizeHist (normalScaled P img1 img2))
  thresholdBin (absdiffQ g1 g2) normalThreshold

/-- Normal-branch mask after morphological cleanup (close then open,
`(5, 5)` kernel) and restriction to the combined earth mask. -/
def normalCleanMask (P : Prims) (img1 img2 : Grid Pix) : Grid Bool :=
  andMask (morphOpen (morphClose (normalDiffMask P img1 img2) 2) 2)
    (orMask (preprocessForEarth P img1).2 (preprocessForEarth P img2).2)

/-- Components of the normal-branch mask whose area exceeds
`0.0002 · w · h` (`min_area = (w * h) * 0.0002`). -/
def normalKept (P : Prims) (img1 img2 : Grid Pix) (w h : Nat) : List (List (Nat × Nat)) :=
  (comps (normalCleanMask P img1 img2)).filter
    (fun c => decide (((w * h : Nat) : ℚ) * (2 / 10000) < (compArea c : ℚ)))

/-- Embedding of `GEEClient._compare_normal_changes`. -/
def compareNormalChanges (P : Prims) (img1 img2 : Grid Pix) (w h : Nat) :
    ℚ × List (List (Nat × Nat)) × Nat :=
  let kept := normalKept P img1 img2 w h
  let changed := countNonZero (drawComps w h kept)
  (((changed : ℚ) / ((w * h : Nat) : ℚ)) * 100, kept, changed)

/-- Non-seasonal `change_level`/`significance` buckets of
`compare_images_advanced` (step 3, `else` branch). -/
def changeLevelNormal (p : ℚ) : String × String :=
  if p < 1 / 2 then ("отсутствуют", "Нет значимых изменений")
  else if p < 2 then ("минимальные", "Минимальные изменения")
  else if p < 5 then ("умеренные", "Заметные изменения")
  else if p < 10 then ("значительные", "Значительные изменения")
  else if p < 20 then ("критические", "Критические изменения")
  else ("катастрофические", "Катастрофические изменения")

/-- Seasonal `change_level`/`significance` buckets of
`compare_images_advanced` (step 3, `if is_seasonal` branch). -/
def changeLevelSeasonal (p : ℚ) : String × String :=
  if p < 3 / 10 then ("отсутствуют", "Только сезонные изменения")
  else if p < 1 then ("минимальные", "Минимальные структурные изменения")
  else if p < 3 then ("незначительные", "Незначительные структурные изменения")
  else if p < 8 then ("умеренные", "Заметные структурные изменения")
  else if p < 15 then ("значительные", "Значительные структурные изменения")
  else ("критические", "Критические структурные изменения")

/-- Index of the non-seasonal bucket a percentage falls in. -/
def normalBucketIdx (p : ℚ) : Nat :=
  if p < 1 / 2 then 0
  else if p < 2 then 1
  else if p < 5 then 2
  else if p < 10 then 3
  else if p < 20 then 4
  else 5

/-- Labels of the six non-seasonal buckets, in threshold order. -/
def normalBucketLabels : List String :=
  ["отсутствуют", "минимальные", "умеренные", "значительные", "критические",
   "катастрофические"]

/-- Lower bound of non-seasonal bucket `k`. -/
def normalBucketLo : Nat → ℚ
  | 0 => 0
  | 1 => 1 / 2
  | 2 => 2
  | 3 => 5
  | 4 => 10
  | _ => 20

/-- Membership of a percentage in non-seasonal bucket `k` (the last
bucket is closed above at 100). -/
def inNormalBucket (k : Nat) (p : ℚ) : Prop :=
  normalBucketLo k ≤ p ∧ (if k < 5 then p < normalBucketLo (k + 1) else p ≤ 100)

/-- Result record of `GEEClient.compare_images_advanced` (timing and
artifact paths omitted). -/
structure AdvResult where
  changed_pixels : Nat
  total_pixels : Nat
  change_percentage : ℚ
  change_level : String
  significance : String
  contours_count : Nat
  is_seasonal : Bool
  brightness_ratio : FVal
  green_ratio : ℚ
deriving DecidableEq

/-- Embedding of the core of `GEEClient.compare_images_advanced` after
both images have been decoded: resize to the common minimum size,
assess seasonality, run the seasonal or the normal branch, bucket the
percentage. -/
def compareImagesAdvanced (P : Prims) (img1 img2 : Grid Pix) : AdvResult :=
  let h := min img1.height img2.height
  let w := min img1.width img2.width
  let i1 := resize img1 w h
  let i2 := resize img2 w h
  let sd := detectSeasonalChanges i1 i2
  let r := if sd.is_seasonal then compareSeasonalChanges P i1 i2 w h sd
           else compareNormalChanges P i1 i2 w h
  let lv := if sd.is_seasonal then changeLevelSeasonal r.1 else changeLevelNormal r.1
  { changed_pixels := r.2.2
    total_pixels := w * h
    change_percentage := r.1
    change_level := lv.1
    significance := lv.2
    contours_count := r.2.1.length
    is_seasonal := sd.is_seasonal
    brightness_ratio := sd.brightness_ratio
    green_ratio := sd.green_ratio }

/-- Vegetation index of a pixel,
`(G - R) / (G + R + 1e-6)` (`improved_change_detector.py`). -/
def vegIndexOf (px : Pix) : ℚ :=
  (px.2.1 - px.2.2) / (px.2.1 + px.2.2 + 1 / 1000000)

/-- Is-vegetated mask: `veg_index > 0.1`. -/
def vegMask (img : Grid Pix) : Grid Bool :=
  mkGrid img.height img.width (fun i j => decide ((1 : ℚ) / 10 < vegIndexOf (img.get i j)))

/-- Vegetation-change mask of
`ImprovedChangeDetector.detect_real_changes`:
`np.logical_xor(veg_mask1, veg_mask2)`. -/
def vegChanges (img1 img2 : Grid Pix) : Grid Bool :=
  mkGrid img1.height img1.width (fun i j =>
    xor ((vegMask img1).get i j) ((vegMask img2).get i j))

/-- Claimed (spec-worded) vegetation-change rule, for comparison:
lost vegetation only, `vegetated-before AND NOT vegetated-after`. -/
def vegChangesClaimed (img1 img2 : Grid Pix) : Grid Bool :=
  mkGrid img1.height img1.width (fun i j =>
    (vegMask img1).get i j && !(vegMask img2).get i j)

/-- Wide-range green mask of `UltimateDetector._calculate_brutal_green_loss`
(union of the two HSV in-range masks). -/
def brutalGreenMask (hsv : Grid Pix) : Grid Bool :=
  orMask (inRangeG hsv (25, 30, 30) (95, 255, 255)) (inRangeG hsv (25, 20, 100) (95, 100, 255))

/-- Embedding of `UltimateDetector._calculate_brutal_green_loss`:
green-before AND NOT green-after on HSV range masks, then dilated twice
with a `(7, 7)` kernel. -/
def brutalGreenLoss (P : Prims) (img1 img2 : Grid Pix) : Grid Bool :=
  let before := brutalGreenMask (P.bgr2hsv img1)
  let after := brutalGreenMask (P.bgr2hsv img2)
  dilate (dilate (andMask before (notMask after)) 3) 3

/-- Change-type selection of `ImprovedChangeDetector.detect_real_changes`
(step 9): sequential strict comparisons of the three mask sums, with
`"неизвестно"` as the initial value that survives when no branch
fires. -/
def changeTypeOf (veg earth tex : Grid Bool) : String :=
  let vs := maskSum veg
  let es := maskSum earth
  let ts := maskSum tex
  if ts < vs ∧ es < vs then "растительность"
  else if ts < es ∧ vs < es then "земляные работы"
  else if vs < ts ∧ es < ts then "структурные"
  else "неизвестно"

/-- Base changed-pixel percentage of `UltimateDetector.detect_with_force`
(`np.sum(combined > 0) / total_pixels * 100`). -/
def basePercentOf (mask : Grid Bool) (w h : Nat) : ℚ :=
  ((countNonZero mask : ℚ) / ((w * h : Nat) : ℚ)) * 100

/-- Forced-percentage computation of `UltimateDetector.detect_with_force`
(step 4): multiply to the force target when `5 < base < 30`, take the
grid percentage when it is larger, raise to the 40.0 minimum when
`base > 10`, clamp to 100. -/
def ultimateForcedPercent (forceP gridP basePercent : ℚ) : ℚ :=
  let forced1 := if 5 < basePercent ∧ basePercent < 30 then
    basePercent * (forceP / basePercent) else basePercent
  let forced2 := if basePercent < gridP then max forced1 gridP else forced1
  let forced3 := if forced2 < 40 ∧ 10 < basePercent then 40 else forced2
  min forced3 100

/-- The change percentage returned by `UltimateDetector.detect_with_force`
for a combined change mask, a grid percentage and a force target. -/
def detectWithForcePercent (forceP : ℚ) (combined : Grid Bool) (w h : Nat)
    (gridP : ℚ) : ℚ :=
  ultimateForcedPercent forceP gridP (basePercentOf combined w h)

/-- Result record of `ImageProcessor.detect_changes`
(`src/image_processor.py`); the `details` dictionary is flattened into
`details_*` fields, absent keys are `none`. -/
structure DetectResult where
  change_score : ℚ
  change_type : String
  confidence : ℚ
  details_error : Option String
  details_changed_pixels : Option Nat
  details_total_pixels : Option Nat
  details_change_percent : Option ℚ
  details_status : Option String
  status : String
deriving DecidableEq

/-- Embedding of `ImageProcessor._error_result`. -/
def errorResult (msg : String) : DetectResult :=
  { change_score := 0
    change_type := "error"
    confidence := 0
    details_error := some msg
    details_changed_pixels := none
    details_total_pixels := none
    details_change_percent := none
    details_status := none
    status := "error" }

/-- Embedding of `ImageProcessor._simple_analyze_changes`. -/
def simpleAnalyzeChanges (img2 : Grid Pix) (thresh : Grid Bool) : String :=
  let mv := maskedMean img2 thresh
  if mv.1 + 20 < mv.2.1 ∧ mv.2.2 + 20 < mv.2.1 then "vegetation_change"
  else if mv.2.1 + 15 < mv.1 ∧ mv.2.2 + 15 < mv.1 then "water_change"
  else if 150 < mv.2.2 ∧ 100 < mv.2.1 then "construction"
  else "building_change"

/-- Embedding of the successfully-decoded path of
`ImageProcessor.detect_changes`: resize both to 640×480, grayscale,
absolute difference, threshold at 25, open then close with a `(3, 3)`
kernel, count, classify. -/
def detectChangesCore (img1 img2 : Grid Pix) : DetectResult :=
  let i1 := resize img1 640 480
  let i2 := resize img2 640 480
  let thresh := morphClose (morphOpen (thresholdBin (absdiffQ (cvtColorGray i1) (cvtColorGray i2)) 25) 1) 1
  let changed := countNonZero thresh
  let total : Nat := 640 * 480
  let score := (changed : ℚ) / (total : ℚ)
  { change_score := score
    change_type := if changed < 50 then "no_changes" else simpleAnalyzeChanges i2 thresh
    confidence := if changed < 50 then 0 else min (score * 10) (95 / 100)
    details_error := none
    details_changed_pixels := some changed
    details_total_pixels := some total
    details_change_percent := some (score * 100)
    details_status := some (if changed < 50 then "no_changes" else "changes_detected")
    status := "completed" }

/-- Embedding of `ImageProcessor.detect_changes` at its decode boundary:
the inputs are the decode results (`None` when `cv2.imread` failed); a
missing image yields the `_error_result` sentinel, nothing can raise
(the Lean function is total, matching the `try/except` wrapper that
converts any exception into the same sentinel). -/
def detectChangesIP (o1 o2 : Option (Grid Pix)) : DetectResult :=
  match o1, o2 with
  | some img1, some img2 => detectChangesCore img1 img2
  | _, _ => errorResult "Не удалось загрузить изображения (cv2.imread вернул None)"

/-- An all-false predicate on a mask, used to push emptiness through
the pipelines. -/
def AllF (m : Grid Bool) : Prop := ∀ i j, m.get i j = false

/-- A 100×100 test image (spec §8, dimension reconciliation). -/
def imgA : Grid Pix := mkGrid 100 100 (fun _ _ => ((0 : ℚ), 0, 0))

/-- A 120×80 test image (80 rows of 120 pixels). -/
def imgB : Grid Pix := mkGrid 80 120 (fun _ _ => ((0 : ℚ), 0, 0))

/-- A 1×1 pure-red image: vegetation index `< 0.1`, not vegetated. -/
def gainBefore : Grid Pix := [[(0, 0, 255)]]

/-- A 1×1 pure-green image: vegetation index `≈ 1 > 0.1`, vegetated. -/
def gainAfter : Grid Pix := [[(0, 255, 0)]]

/-- Claim C1: the seasonal discriminator returns `is_seasonal = true`
iff `brightness_ratio > 1.5`, or `green_ratio > 1.5`, or
`green_ratio < 0.67`, or the mean-saturation difference exceeds `20`. -/
theorem seasonal_iff_thresholds (img1 img2 : Grid Pix) :
    (detectSeasonalChanges img1 img2).is_seasonal = true ↔
      (FVal.gtQ (detectSeasonalChanges img1 img2).brightness_ratio (3 / 2) = true ∨
        (3 : ℚ) / 2 < (detectSeasonalChanges img1 img2).green_ratio ∨
        (detectSeasonalChanges img1 img2).green_ratio < 67 / 100 ∨
        (20 : ℚ) < (detectSeasonalChanges img1 img2).saturation_diff) := by
  simp only [detectSeasonalChanges, Bool.or_eq_true, decide_eq_true_eq]
  tauto

/-- Claim C5 (code bug): on two all-black inputs (both mean luminances
are `0`) the code performs the division `max/min = 0/0` and obtains
`NaN` instead of substituting `1.0`; with one black and one white input
it obtains `+inf`.  The green-ratio guard, by contrast, is present:
with mean green `0` the green ratio is `1`. -/
theorem brightness_ratio_unguarded :
    (detectSeasonalChanges blackImg blackImg).brightness_ratio = FVal.nan ∧
      FVal.nan ≠ FVal.fin 1 ∧
      (detectSeasonalChanges blackImg whiteImg).brightness_ratio = FVal.inf ∧
      FVal.inf ≠ FVal.fin 1 ∧
      (detectSeasonalChanges blackImg blackImg).green_ratio = 1 := by
  norm_num [detectSeasonalChanges, blackImg, whiteImg, cvtColorGray, greenChannel,
    meanQ, gridSum, gridCount, mkGrid, Grid.height, Grid.width, Grid.get, fdiv,
    List.range_succ]
  exact ⟨by decide, by decide⟩

/-! Helper lemmas about the grid primitives. -/

theorem get_mkGrid {α : Type} [Inhabited α] (h w : Nat) (f : Nat → Nat → α) (i j : Nat) :
    (mkGrid h w f).get i j = if i < h ∧ j < w then f i j else default := by
  unfold mkGrid Grid.get
  simp only [List.getD_eq_getElem?_getD, List.getElem?_map]
  rcases Nat.lt_or_ge i h with hi | hi
  · rw [List.getElem?_range hi]
    simp only [Option.map_some', Option.getD_some, List.getElem?_map]
    rcases Nat.lt_or_ge j w with hj | hj
    · rw [List.getElem?_range hj]
      simp [hi, hj]
    · rw [List.getElem?_eq_none (by simpa using hj)]
      simp [Nat.not_lt.2 hj]
  · rw [List.getElem?_eq_none (show (List.range h).length ≤ i by simpa using hi)]
    simp [Nat.not_lt.2 hi]

theorem get_mkGrid_of {α : Type} [Inhabited α] {h w : Nat} (f : Nat → Nat → α) {i j : Nat}
    (hi : i < h) (hj : j < w) : (mkGrid h w f).get i j = f i j := by
  rw [get_mkGrid]; simp [hi, hj]

theorem height_mkGrid {α : Type} (h w : Nat) (f : Nat → Nat → α) :
    (mkGrid h w f).height = h := by
  simp [mkGrid, Grid.height]

theorem width_mkGrid {α : Type} {h : Nat} (w : Nat) (f : Nat → Nat → α) (hh : 0 < h) :
    (mkGrid h w f).width = w := by
  obtain ⟨n, rfl⟩ := Nat.exists_eq_succ_of_ne_zero (Nat.pos_iff_ne_zero.1 hh)
  simp [mkGrid, Grid.width, List.range_succ_eq_map]

theorem allF_mkGrid {h w : Nat} {f : Nat → Nat → Bool} (hf : ∀ i j, f i j = false) :
    AllF (mkGrid h w f) := by
  intro i j
  rw [get_mkGrid]
  split <;> simp [hf]

theorem getI_allF {m : Grid Bool} (h : AllF m) (i j : Int) : getI m i j = false := by
  unfold getI
  split
  · exact h _ _
  · rfl

theorem window_mem_zero (r : Nat) : ((0 : Int), (0 : Int)) ∈ window r := by
  unfold window
  rw [List.mem_flatMap]
  refine ⟨r, by rw [List.mem_range]; omega, ?_⟩
  rw [List.mem_map]
  exact ⟨r, by rw [List.mem_range]; omega, by simp⟩

theorem dilate_allF {m : Grid Bool} (h : AllF m) (r : Nat) : AllF (dilate m r) := by
  apply allF_mkGrid
  intro i j
  simp [getI_allF h]

theorem erode_allF {m : Grid Bool} (h : AllF m) (r : Nat) : AllF (erode m r) := by
  apply allF_mkGrid
  intro i j
  rw [List.all_eq_false]
  exact ⟨((0 : Int), (0 : Int)), window_mem_zero r, by simp [getI_allF h]⟩

theorem morphClose_allF {m : Grid Bool} (h : AllF m) (r : Nat) : AllF (morphClose m r) :=
  erode_allF (dilate_allF h r) r

theorem morphOpen_allF {m : Grid Bool} (h : AllF m) (r : Nat) : AllF (morphOpen m r) :=
  dilate_allF (erode_allF h r) r

theorem andMask_allF_left {a b : Grid Bool} (h : AllF a) : AllF (andMask a b) := by
  apply allF_mkGrid
  intro i j
  simp [h i j]

theorem absdiffQ_self (g : Grid ℚ) : ∀ i j, (absdiffQ g g).get i j = 0 := by
  intro i j
  unfold absdiffQ
  rw [get_mkGrid]
  split
  · simp
  · rfl

theorem thresholdBin_allF {g : Grid ℚ} {t : ℚ} (ht : 0 ≤ t)
    (hg : ∀ i j, g.get i j = 0) : AllF (thresholdBin g t) := by
  apply allF_mkGrid
  intro i j
  rw [hg i j]
  simpa using not_lt.2 ht

theorem countNonZero_allF {m : Grid Bool} (h : AllF m) : countNonZero m = 0 := by
  unfold countNonZero
  apply List.sum_eq_zero
  intro x hx
  rcases List.mem_map.1 hx with ⟨row, hrow, rfl⟩
  rw [List.count_eq_zero]
  intro htrue
  rcases List.mem_iff_getElem.1 hrow with ⟨i, hi, hrowi⟩
  rcases List.mem_iff_getElem.1 htrue with ⟨j, hj, hval⟩
  have e1 : m.getD i [] = row := by
    rw [List.getD_eq_getElem?_getD, List.getElem?_eq_getElem hi, Option.getD_some, hrowi]
  have hg := h i j
  unfold Grid.get at hg
  rw [e1, List.getD_eq_getElem?_getD, List.getElem?_eq_getElem hj, Option.getD_some,
    hval] at hg
  exact absurd hg (by simp)

theorem cells_allF {m : Grid Bool} (h : AllF m) : cells m = [] := by
  unfold cells
  rw [List.flatMap_eq_nil_iff]
  intro i _
  rw [List.filterMap_eq_nil_iff]
  intro j _
  simp [h i j]

theorem comps_allF {m : Grid Bool} (h : AllF m) : comps m = [] := by
  unfold comps
  rw [cells_allF h]
  rfl

/-! Claim theorems (continued). -/

/-- Claim C6: for decodable inputs the normaliser resizes both images
to exactly the minimum of the two widths and the minimum of the two
heights, so the working pair has identical dimensions. -/
theorem resizePair_min_dims (img1 img2 : Grid Pix)
    (h1 : 0 < img1.height) (h2 : 0 < img2.height) :
    (resizePair img1 img2).1.height = min img1.height img2.height ∧
      (resizePair img1 img2).1.width = min img1.width img2.width ∧
      (resizePair img1 img2).2.height = min img1.height img2.height ∧
      (resizePair img1 img2).2.width = min img1.width img2.width := by
  have hh : 0 < min img1.height img2.height := lt_min h1 h2
  unfold resizePair resize
  exact ⟨height_mkGrid _ _ _, width_mkGrid _ _ hh, height_mkGrid _ _ _, width_mkGrid _ _ hh⟩

/-- Witness for C6: a 100×100 and a 120×80 input produce a 100×80
working pair. -/
theorem resizePair_min_dims_witness :
    (resizePair imgA imgB).1.height = 80 ∧ (resizePair imgA imgB).1.width = 100 ∧
      (resizePair imgA imgB).2.height = 80 ∧ (resizePair imgA imgB).2.width = 100 := by
  have hA : imgA.height = 100 := height_mkGrid _ _ _
  have hB : imgB.height = 80 := height_mkGrid _ _ _
  have wA : imgA.width = 100 := width_mkGrid _ _ (by norm_num)
  have wB : imgB.width = 120 := width_mkGrid _ _ (by norm_num)
  obtain ⟨a, b, c, d⟩ := resizePair_min_dims imgA imgB (by rw [hA]; norm_num)
    (by rw [hB]; norm_num)
  refine ⟨?_, ?_, ?_, ?_⟩
  · rw [a, hA, hB]; decide
  · rw [b, wA, wB]; decide
  · rw [c, hA, hB]; decide
  · rw [d, wA, wB]; decide

/-- Claim C4 counterexample: at `change_percentage = 25` the code
assigns the seventh label `катастрофические` (catastrophic), not the
claimed `критические` (critical) bucket for `≥ 20`; the code uses
`критические` for the `[10, 20)` bucket instead. -/
theorem changeLevelNormal_labels_shifted :
    (changeLevelNormal 25).1 = "катастрофические" ∧
      (changeLevelNormal 15).1 = "критические" ∧
      "катастрофические" ≠ "критические" := by
  refine ⟨by norm_num [changeLevelNormal], by norm_num [changeLevelNormal], by decide⟩

/-- Claim C4, amended: the non-seasonal scale has the six buckets
отсутствуют / минимальные / умеренные / значительные / критические /
катастрофические with thresholds `<0.5, <2, <5, <10, <20, ≥20`; the
bucket index is monotone, the buckets partition `[0, 100]` with no gaps
or overlaps, and the seven sample values each fall in exactly one
bucket. -/
theorem changeLevelNormal_buckets :
    (∀ p : ℚ, (changeLevelNormal p).1 = normalBucketLabels.getD (normalBucketIdx p) "") ∧
      (∀ p q : ℚ, p ≤ q → normalBucketIdx p ≤ normalBucketIdx q) ∧
      (∀ p : ℚ, 0 ≤ p → p ≤ 100 →
        inNormalBucket (normalBucketIdx p) p ∧
          ∀ k, k ≤ 5 → inNormalBucket k p → k = normalBucketIdx p) ∧
      ((changeLevelNormal 0).1 = "отсутствуют" ∧
        (changeLevelNormal (2 / 5)).1 = "отсутствуют" ∧
        (changeLevelNormal (19 / 10)).1 = "минимальные" ∧
        (changeLevelNormal (49 / 10)).1 = "умеренные" ∧
        (changeLevelNormal (99 / 10)).1 = "значительные" ∧
        (changeLevelNormal (199 / 10)).1 = "критические" ∧
        (changeLevelNormal 25).1 = "катастрофические") := by
  refine ⟨?_, ?_, ?_, ?_⟩
  · intro p
    unfold changeLevelNormal normalBucketIdx normalBucketLabels
    split_ifs <;> rfl
  · intro p q hpq
    unfold normalBucketIdx
    split_ifs <;> first | omega | (exfalso; linarith)
  · intro p h0 h100
    constructor
    · unfold normalBucketIdx
      split_ifs with a1 a2 a3 a4 a5 <;>
        · unfold inNormalBucket
          norm_num [normalBucketLo]
          try constructor <;> linarith
    · intro k hk hin
      unfold inNormalBucket at hin
      unfold normalBucketIdx
      interval_cases k <;> norm_num [normalBucketLo] at hin <;>
        obtain ⟨hlo, hhi⟩ := hin <;> split_ifs <;> first | rfl | (exfalso; linarith)
  · refine ⟨?_, ?_, ?_, ?_, ?_, ?_, ?_⟩ <;> norm_num [changeLevelNormal]

/-- Witness for C4 (amended): the concrete value 3 lies in its bucket
and the index is monotone from 3 to 7. -/
theorem changeLevelNormal_buckets_witness :
    normalBucketIdx 3 ≤ normalBucketIdx 7 ∧ inNormalBucket (normalBucketIdx 3) 3 :=
  ⟨changeLevelNormal_buckets.2.1 3 7 (by norm_num),
    (changeLevelNormal_buckets.2.2.1 3 (by norm_num) (by norm_num)).1⟩

/-- Claim C8 counterexample: with equal vegetation and earth mask sums
both strictly above the texture sum, no strict comparison fires and
the change type stays `неизвестно` (unknown) — the claimed priority
order would have chosen vegetation. -/
theorem changeType_tie_unknown :
    changeTypeOf [[true]] [[true]] [[false]] = "неизвестно" ∧
      "неизвестно" ≠ "растительность" := by
  decide

/-- Claim C8, amended: the category with the strictly largest mask sum
wins; whenever no category is a strict maximum (in particular on any
tie for the largest area) the result is `неизвестно` (unknown) — ties
are not resolved by a vegetation-first priority. -/
theorem changeType_strict_winner (veg earth tex : Grid Bool) :
    (maskSum tex < maskSum veg ∧ maskSum earth < maskSum veg →
        changeTypeOf veg earth tex = "растительность") ∧
      (maskSum tex < maskSum earth ∧ maskSum veg < maskSum earth →
        changeTypeOf veg earth tex = "земляные работы") ∧
      (maskSum veg < maskSum tex ∧ maskSum earth < maskSum tex →
        changeTypeOf veg earth tex = "структурные") ∧
      (¬(maskSum tex < maskSum veg ∧ maskSum earth < maskSum veg) →
        ¬(maskSum tex < maskSum earth ∧ maskSum veg < maskSum earth) →
        ¬(maskSum veg < maskSum tex ∧ maskSum earth < maskSum tex) →
        changeTypeOf veg earth tex = "неизвестно") := by
  simp only [changeTypeOf]
  refine ⟨?_, ?_, ?_, ?_⟩ <;> intros <;> split_ifs <;> first | rfl | omega

/-- Witness for C8 (amended): a strict vegetation maximum yields the
vegetation label. -/
theorem changeType_strict_winner_witness :
    changeTypeOf [[true]] [[false]] [[false]] = "растительность" :=
  (changeType_strict_winner [[true]] [[false]] [[false]]).1 ⟨by decide, by decide⟩

/-- The forced percentage never exceeds 100 (`min(forced, 100.0)`). -/
theorem ultimate_le_100 (f g b : ℚ) : ultimateForcedPercent f g b ≤ 100 := by
  simp only [ultimateForcedPercent]
  exact min_le_right _ _

/-- Whenever the base percentage exceeds 10, the forced minimum of 40
applies. -/
theorem ultimate_floor (f g b : ℚ) (hb : 10 < b) : 40 ≤ ultimateForcedPercent f g b := by
  simp only [ultimateForcedPercent]
  set f1 := if 5 < b ∧ b < 30 then b * (f / b) else b with hf1
  set f2 := if b < g then max f1 g else f1 with hf2
  by_cases hc : f2 < 40
  · rw [if_pos ⟨hc, hb⟩, le_min_iff]
    exact ⟨le_refl _, by norm_num⟩
  · rw [if_neg (fun hand => hc hand.1), le_min_iff]
    exact ⟨not_lt.1 hc, by norm_num⟩

/-- Claim C10: the percentage returned by the forced detector is
clamped to at most 100, and whenever the measured base changed-pixel
percentage exceeds 10 the returned percentage is at least 40,
independently of the pixel evidence. -/
theorem detectWithForce_clamp_floor (combined : Grid Bool) (w h : Nat) (forceP gridP : ℚ) :
    detectWithForcePercent forceP combined w h gridP ≤ 100 ∧
      (10 < basePercentOf combined w h →
        40 ≤ detectWithForcePercent forceP combined w h gridP) :=
  ⟨ultimate_le_100 _ _ _, fun hb => ultimate_floor _ _ _ hb⟩

/-- Witness for C10: a fully-changed 1×1 mask has base percentage 100,
so the returned percentage lies in `[40, 100]`. -/
theorem detectWithForce_clamp_floor_witness :
    detectWithForcePercent 60 [[true]] 1 1 0 ≤ 100 ∧
      40 ≤ detectWithForcePercent 60 [[true]] 1 1 0 := by
  have t := detectWithForce_clamp_floor [[true]] 1 1 60 0
  exact ⟨t.1, t.2 (by norm_num [basePercentOf, countNonZero])⟩

/-- Claim C2, amended: the vegetation-change extractor of
`detect_real_changes` computes the index `(G-R)/(G+R+1e-6)` for both
images, binarises at `0.1`, and marks as changed exactly the pixels
whose is-vegetated flags differ between the two images (`logical_xor`,
both loss and gain) — not only the vegetated-before-and-not-after
pixels. -/
theorem vegChanges_is_xor (img1 img2 : Grid Pix) (i j : Nat)
    (hi1 : i < img1.height) (hj1 : j < img1.width)
    (hi2 : i < img2.height) (hj2 : j < img2.width) :
    ((vegChanges img1 img2).get i j = true ↔
      ¬(((1 : ℚ) / 10 < vegIndexOf (img1.get i j)) ↔
        ((1 : ℚ) / 10 < vegIndexOf (img2.get i j)))) := by
  unfold vegChanges vegMask
  rw [get_mkGrid_of _ hi1 hj1, get_mkGrid_of _ hi1 hj1, get_mkGrid_of _ hi2 hj2]
  by_cases hA : (1 : ℚ) / 10 < vegIndexOf (img1.get i j) <;>
    by_cases hB : (1 : ℚ) / 10 < vegIndexOf (img2.get i j) <;>
    simp [hA, hB]

/-- Claim C2 counterexample: a pixel that is not vegetated before and
vegetated after is marked as changed by the code (`logical_xor`),
whereas the claimed rule `vegetated-before AND NOT vegetated-after`
leaves it unmarked. -/
theorem vegChanges_marks_gain :
    (vegChanges gainBefore gainAfter).get 0 0 = true ∧
      (vegChangesClaimed gainBefore gainAfter).get 0 0 = false ∧
      (vegMask gainBefore).get 0 0 = false := by
  norm_num [vegChanges, vegChangesClaimed, vegMask, vegIndexOf, gainBefore, gainAfter,
    Grid.get, Grid.height, Grid.width, mkGrid, List.range_succ]

/-- Witness for C2 (amended): the xor characterisation applied at the
concrete gain pixel. -/
theorem vegChanges_is_xor_witness :
    (vegChanges gainBefore gainAfter).get 0 0 = true ↔
      ¬(((1 : ℚ) / 10 < vegIndexOf (gainBefore.get 0 0)) ↔
        ((1 : ℚ) / 10 < vegIndexOf (gainAfter.get 0 0))) :=
  vegChanges_is_xor gainBefore gainAfter 0 0 (by decide) (by decide) (by decide) (by decide)

/-- Claim C3: when either input image failed to decode, the comparison
returns the `_error_result` sentinel: `change_type = "error"`, a zero
change score, and an embedded error message; the embedding is a total
function, so no exception can propagate past the boundary. -/
theorem detectChangesIP_error_sentinel (o1 o2 : Option (Grid Pix))
    (h : o1 = none ∨ o2 = none) :
    (detectChangesIP o1 o2).change_type = "error" ∧
      (detectChangesIP o1 o2).change_score = 0 ∧
      (detectChangesIP o1 o2).details_error ≠ none := by
  rcases h with rfl | rfl
  · cases o2 <;> simp [detectChangesIP, errorResult]
  · cases o1 <;> simp [detectChangesIP, errorResult]

/-- Witness for C3: both decodes failing yields the sentinel. -/
theorem detectChangesIP_error_sentinel_witness :
    (detectChangesIP none none).change_type = "error" ∧
      (detectChangesIP none none).change_score = 0 ∧
      (detectChangesIP none none).details_error ≠ none :=
  detectChangesIP_error_sentinel none none (Or.inl rfl)

/-- Comparing an image with itself is never classified as seasonal:
both ratios are 1 (or NaN for a black image, which also fails the
threshold test) and the saturation difference is 0. -/
theorem detectSeasonal_self (Y : Grid Pix) :
    (detectSeasonalChanges Y Y).is_seasonal = false := by
  simp only [detectSeasonalChanges]
  have hgr : (if 0 < meanQ (greenChannel Y) then
      meanQ (greenChannel Y) / meanQ (greenChannel Y) else 1) = 1 := by
    split_ifs with h
    · exact div_self (ne_of_gt h)
    · rfl
  rw [hgr, max_self, min_self, sub_self, abs_zero]
  have hbr : FVal.gtQ (fdiv (meanQ (cvtColorGray Y)) (meanQ (cvtColorGray Y))) (3 / 2)
      = false := by
    by_cases hm : meanQ (cvtColorGray Y) = 0
    · rw [hm]
      norm_num [fdiv, FVal.gtQ]
    · unfold fdiv
      rw [if_neg hm, div_self hm]
      norm_num [FVal.gtQ]
  rw [hbr]
  norm_num

/-- With equal inputs the brightness-alignment step of the normal
branch is skipped (the means are equal). -/
theorem normalScaled_self (P : Prims) (X : Grid Pix) :
    normalScaled P X X = normalPre P X := by
  simp only [normalScaled]
  rw [sub_self, abs_zero]
  norm_num

/-- The normal-branch difference mask of an image against itself is
empty. -/
theorem normalDiffMask_self (P : Prims) (X : Grid Pix) :
    AllF (normalDiffMask P X X) := by
  unfold normalDiffMask
  rw [normalScaled_self]
  exact thresholdBin_allF (by norm_num [normalThreshold]) (absdiffQ_self _)

/-- The cleaned normal-branch mask of an image against itself is
empty. -/
theorem normalCleanMask_self (P : Prims) (X : Grid Pix) :
    AllF (normalCleanMask P X X) := by
  unfold normalCleanMask
  exact andMask_allF_left (morphOpen_allF (morphClose_allF (normalDiffMask_self P X) 2) 2)

/-- The normal branch on an image against itself finds zero changed
pixels, zero percent, no contours. -/
theorem compareNormal_self (P : Prims) (X : Grid Pix) (w h : Nat) :
    compareNormalChanges P X X w h = (0, [], 0) := by
  have hkept : normalKept P X X w h = [] := by
    unfold normalKept
    rw [comps_allF (normalCleanMask_self P X)]
    rfl
  have hdraw : AllF (drawComps w h ([] : List (List (Nat × Nat)))) :=
    allF_mkGrid (fun i j => rfl)
  simp only [compareNormalChanges, hkept]
  rw [countNonZero_allF hdraw]
  norm_num

/-- The decoded-image path of `ImageProcessor.detect_changes` on equal
inputs: zero score, type `no_changes`. -/
theorem detectCore_self (X : Grid Pix) :
    (detectChangesCore X X).change_score = 0 ∧
      (detectChangesCore X X).change_type = "no_changes" := by
  have hall : AllF (morphClose (morphOpen (thresholdBin (absdiffQ
      (cvtColorGray (resize X 640 480)) (cvtColorGray (resize X 640 480))) 25) 1) 1) :=
    morphClose_allF (morphOpen_allF (thresholdBin_allF (by norm_num) (absdiffQ_self _)) 1) 1
  simp only [detectChangesCore]
  rw [countNonZero_allF hall]
  norm_num

/-- Claim C9: comparing any image with itself yields a zero change
percentage (below the 0.5 none/minimal threshold) and the `отсутствуют`
level in the advanced comparison, and a zero score with change type
`no_changes` (so none of the structural / vegetation / earthworks
types) in `ImageProcessor.detect_changes` — for any choice of the
library primitives. -/
theorem compare_self_no_change (P : Prims) (X : Grid Pix) :
    (compareImagesAdvanced P X X).change_percentage = 0 ∧
      (compareImagesAdvanced P X X).change_percentage < 1 / 2 ∧
      (compareImagesAdvanced P X X).change_level = "отсутствуют" ∧
      (detectChangesIP (some X) (some X)).change_score = 0 ∧
      (detectChangesIP (some X) (some X)).change_type = "no_changes" := by
  have hip := detectCore_self X
  have hns := detectSeasonal_self (resize X (min X.width X.width) (min X.height X.height))
  have hnc := compareNormal_self P (resize X (min X.width X.width) (min X.height X.height))
    (min X.width X.width) (min X.height X.height)
  simp only [compareImagesAdvanced, detectChangesIP]
  rw [hns]
  simp only [Bool.false_eq_true, if_false, hnc]
  norm_num [changeLevelNormal, hip.1, hip.2]

/-- Claim C7: when `is_seasonal` is true the fusion uses only the
grayscale absolute-difference signal (the seasonal branch is invariant
under any change of the inputs that preserves their grayscale images),
with a stronger blur (15 vs 5 kernel, σ 5 vs 1.5) and a higher
threshold (50 vs 15) than the normal branch; the surviving contours
are exactly the connected components whose area exceeds 2% of the
image area, a pixel is in the change mask iff it belongs to such a
component, and `compare_images_advanced` routes seasonal comparisons
to this branch. -/
theorem seasonal_fusion_structural :
    (normalBlurKsize < seasonalBlurKsize ∧ normalBlurSigma < seasonalBlurSigma ∧
        normalThreshold < seasonalThreshold) ∧
      (∀ (P : Prims) (img1 img1' img2 img2' : Grid Pix) (w h : Nat) (sd : SeasonalData),
        cvtColorGray img1 = cvtColorGray img1' → cvtColorGray img2 = cvtColorGray img2' →
        compareSeasonalChanges P img1 img2 w h sd =
          compareSeasonalChanges P img1' img2' w h sd) ∧
      (∀ (P : Prims) (img1 img2 : Grid Pix) (w h : Nat) (sd : SeasonalData)
        (c : List (Nat × Nat)),
        c ∈ seasonalKept P img1 img2 w h sd ↔
          c ∈ comps (seasonalDiffMask P img1 img2 sd) ∧
            ((w * h : Nat) : ℚ) * (2 / 100) < (compArea c : ℚ)) ∧
      (∀ (P : Prims) (img1 img2 : Grid Pix) (w h : Nat) (sd : SeasonalData) (i j : Nat),
        i < h → j < w →
        ((drawComps w h (seasonalKept P img1 img2 w h sd)).get i j = true ↔
          ∃ c ∈ seasonalKept P img1 img2 w h sd, (i, j) ∈ c)) ∧
      (∀ (P : Prims) (img1 img2 : Grid Pix),
        (detectSeasonalChanges
            (resize img1 (min img1.width img2.width) (min img1.height img2.height))
            (resize img2 (min img1.width img2.width) (min img1.height img2.height))).is_seasonal
            = true →
        (compareImagesAdvanced P img1 img2).change_percentage =
          (compareSeasonalChanges P
            (resize img1 (min img1.width img2.width) (min img1.height img2.height))
            (resize img2 (min img1.width img2.width) (min img1.height img2.height))
            (min img1.width img2.width) (min img1.height img2.height)
            (detectSeasonalChanges
              (resize img1 (min img1.width img2.width) (min img1.height img2.height))
              (resize img2 (min img1.width img2.width) (min img1.height img2.height)))).1) := by
  refine ⟨?_, ?_, ?_, ?_, ?_⟩
  · norm_num [normalBlurKsize, seasonalBlurKsize, normalBlurSigma, seasonalBlurSigma,
      normalThreshold, seasonalThreshold]
  · intro P img1 img1' img2 img2' w h sd h1 h2
    unfold compareSeasonalChanges seasonalKept seasonalDiffMask
    rw [h1, h2]
  · intro P img1 img2 w h sd c
    unfold seasonalKept
    rw [List.mem_filter]
    simp
  · intro P img1 img2 w h sd i j hi hj
    unfold drawComps
    rw [get_mkGrid_of _ hi hj]
    simp [List.any_eq_true]
  · intro P img1 img2 hs
    simp only [compareImagesAdvanced]
    rw [if_pos hs]

/-- Witness for C7: the gray-dependence, the filter characterisation
and the seasonal routing, instantiated at the concrete black/white
pair (which is seasonal: the brightness ratio is `+inf`). -/
theorem seasonal_fusion_structural_witness :
    (compareSeasonalChanges defaultPrims blackImg whiteImg 1 1
        (detectSeasonalChanges blackImg whiteImg) =
      compareSeasonalChanges defaultPrims blackImg whiteImg 1 1
        (detectSeasonalChanges blackImg whiteImg)) ∧
      ((drawComps 1 1 (seasonalKept defaultPrims blackImg whiteImg 1 1
          (detectSeasonalChanges blackImg whiteImg))).get 0 0 = true ↔
        ∃ c ∈ seasonalKept defaultPrims blackImg whiteImg 1 1
          (detectSeasonalChanges blackImg whiteImg), (0, 0) ∈ c) ∧
      (compareImagesAdvanced defaultPrims blackImg whiteImg).change_percentage =
        (compareSeasonalChanges defaultPrims
          (resize blackImg (min blackImg.width whiteImg.width)
            (min blackImg.height whiteImg.height))
          (resize whiteImg (min blackImg.width whiteImg.width)
            (min blackImg.height whiteImg.height))
          (min blackImg.width whiteImg.width) (min blackImg.height whiteImg.height)
          (detectSeasonalChanges
            (resize blackImg (min blackImg.width whiteImg.width)
              (min blackImg.height whiteImg.height))
            (resize whiteImg (min blackImg.width whiteImg.width)
              (min blackImg.height whiteImg.height)))).1 :=
  ⟨seasonal_fusion_structural.2.1 defaultPrims blackImg blackImg whiteImg whiteImg 1 1
      (detectSeasonalChanges blackImg whiteImg) rfl rfl,
    seasonal_fusion_structural.2.2.2.1 defaultPrims blackImg whiteImg 1 1
      (detectSeasonalChanges blackImg whiteImg) 0 0 (by decide) (by decide),
    seasonal_fusion_structural.2.2.2.2 defaultPrims blackImg whiteImg (by
      norm_num [resize, mkGrid, List.range_succ, Grid.get, Grid.height, Grid.width,
        blackImg, whiteImg, detectSeasonalChanges, cvtColorGray, greenChannel,
        saturationChannel, saturationOf, meanQ, gridSum, gridCount, fdiv, FVal.gtQ])⟩
